import Mathlib

/-!
Shallow embedding of `src/DataVisualizations.py` (class `DataVisualizations`).

Numeric column values are modelled as integers: every numeric example in the
spec is integer-valued, the bin arithmetic of `visualize_numeric` is integer
arithmetic (`int()` of an exact quotient), and floating-point rounding is
outside the scope of this development.  Quantities that are genuinely
fractional in the program — percentile ranks, interpolated percentile
values, the subsample fraction — are modelled as rationals.

The external library operations the code calls (`int()`, `round()`,
`range()`, `np.min`, `np.max`, `np.percentile`, pandas
`Series.value_counts`, `DataFrame.groupby(...).sum`, `DataFrame.sample`,
the pandas plot-kind validation) are embedded by their documented
behaviour, since the repository delegates them to numpy/pandas.  Rendering
and rasterisation are out of scope (per the spec): a visualization call is
modelled by the data handed to the plotting layer (`Rendered`), the axis
limits set, the title/labels, and the path written to.
-/

deriving instance DecidableEq for Except

/-- Python `round()` applied to an exact rational: round half to even. -/
def pyroundHalfEven (q : ℚ) : Int :=
  if q - (⌊q⌋ : ℚ) < 1/2 then ⌊q⌋
  else if 1/2 < q - (⌊q⌋ : ℚ) then ⌊q⌋ + 1
  else if ⌊q⌋ % 2 = 0 then ⌊q⌋ else ⌊q⌋ + 1

/-- Number of elements of Python `range(start, stop, step)` for `step > 0`
(`range` raises on `step = 0`; negative steps are never used by the code). -/
def pyrangeLen (start stop step : Int) : Nat :=
  if step ≤ 0 ∨ stop ≤ start then 0
  else (stop - start - 1).toNat / step.toNat + 1

/-- Python `range(start, stop, step)` as a list, for `step > 0`. -/
def pyrange (start stop step : Int) : List Int :=
  (List.range (pyrangeLen start stop step)).map (fun k : Nat => start + step * (k : Int))

/-- `np.min` on a column; the empty case (where numpy raises) is `none`. -/
def listMin? : List ℤ → Option ℤ
  | [] => none
  | x :: t => some (t.foldl min x)

/-- `np.max` on a column; the empty case (where numpy raises) is `none`. -/
def listMax? : List ℤ → Option ℤ
  | [] => none
  | x :: t => some (t.foldl max x)

/-- `np.min` on a nonempty column (callers establish nonemptiness; numpy
raises on an empty array). -/
def npMin : List ℤ → ℤ
  | [] => 0
  | x :: t => t.foldl min x

/-- `np.max` on a nonempty column. -/
def npMax : List ℤ → ℤ
  | [] => 0
  | x :: t => t.foldl max x

/-- Stable insertion into a list sorted by `le`. -/
def insertSortedBy (le : α → α → Bool) (x : α) : List α → List α
  | [] => [x]
  | y :: ys => if le x y then x :: y :: ys else y :: insertSortedBy le x ys

/-- Stable insertion sort by `le`. -/
def sortBy (le : α → α → Bool) (xs : List α) : List α :=
  xs.foldr (insertSortedBy le) []

/-- Ascending sort of a numeric column. -/
def sortAsc (xs : List ℤ) : List ℤ :=
  sortBy (fun a b => decide (a ≤ b)) xs

/-- `np.percentile(xs, q)` with the default linear interpolation: for the
ascending sort `s` of `xs` of length `n`, the virtual index is
`i = q/100 * (n-1)` and the result interpolates between the entries at the
floor and the ceiling of `i`.  The ceiling index is written `⌊i⌋ + 1`: when
`i` is integral the interpolation weight `i - ⌊i⌋` is zero, so the two
readings of the upper entry give the same value. -/
def percentile (xs : List ℤ) (q : ℚ) : ℚ :=
  let s := sortAsc xs
  let i : ℚ := q / 100 * ((s.length : ℚ) - 1)
  ((s.getD (⌊i⌋).toNat 0 : ℤ) : ℚ)
    + (i - (⌊i⌋ : ℚ)) * (((s.getD ((⌊i⌋).toNat + 1) 0 : ℤ) : ℚ) - ((s.getD (⌊i⌋).toNat 0 : ℤ) : ℚ))

/-- A cell of a dataframe column: numeric or categorical. -/
inductive CellVal where
  | num (z : ℤ)
  | str (s : String)
deriving DecidableEq, Repr

/-- A pandas `DataFrame`: named columns of equal length. -/
structure DataFrame where
  cols : List (String × List CellVal)
deriving DecidableEq, Repr

/-- Column lookup `df[name]`; `none` models the pandas `KeyError`. -/
def DataFrame.get? (df : DataFrame) (name : String) : Option (List CellVal) :=
  (df.cols.find? (fun p => p.1 = name)).map (fun p => p.2)

/-- Row count of a dataframe (pandas columns share one length). -/
def DataFrame.nrows (df : DataFrame) : Nat :=
  match df.cols with
  | [] => 0
  | c :: _ => c.2.length

/-- `df.sample` keeping `k` rows.  Pandas selects `k` random rows; the claims
constrain only the row count, so the embedding keeps the first `k` rows of
each column (the random selection itself is not pure). -/
def DataFrame.sample (df : DataFrame) (k : Nat) : DataFrame :=
  ⟨df.cols.map (fun c => (c.1, c.2.take k))⟩

/-- Row count pandas `sample(frac=frac)` draws: `round(frac * n)` with
Python rounding (pandas computes `size = round(frac * obj_len)`). -/
def pandasSampleN (frac : ℚ) (n : Nat) : Nat :=
  (pyroundHalfEven (frac * (n : ℚ))).toNat

/-- Extract a numeric column; a categorical cell models the `TypeError` the
numeric operations would raise, as `none`. -/
def asNum? (cells : List CellVal) : Option (List ℤ) :=
  cells.mapM (fun c => match c with | .num z => some z | .str _ => none)

/-- First-occurrence list of distinct elements. -/
def distinct [DecidableEq α] (xs : List α) : List α :=
  xs.foldl (fun acc v => if v ∈ acc then acc else acc ++ [v]) []

/-- Strict lexicographic order on character lists, by code point. -/
def charListLtB : List Char → List Char → Bool
  | [], [] => false
  | [], _ :: _ => true
  | _ :: _, [] => false
  | a :: as, b :: bs =>
    if a.toNat < b.toNat then true
    else if b.toNat < a.toNat then false
    else charListLtB as bs

/-- Lexicographic `≤` on strings, by code point (the order Python and pandas
use when sorting string keys). -/
def strLeB (a b : String) : Bool := !(charListLtB b.data a.data)

/-- Ordering on cells used when pandas sorts group keys (columns are
homogeneous in practice; across kinds the order is arbitrary). -/
def cellLe : CellVal → CellVal → Bool
  | .num a, .num b => decide (a ≤ b)
  | .str a, .str b => strLeB a b
  | .num _, .str _ => true
  | .str _, .num _ => false

/-- pandas `Series.value_counts()`: frequency of each distinct value, sorted
by count descending (the default `sort=True, ascending=False`). -/
def value_counts (xs : List CellVal) : List (CellVal × Nat) :=
  sortBy (fun a b => Nat.ble b.2 a.2)
    ((distinct xs).map (fun v => (v, (xs.filter (fun u => decide (u = v))).length)))

/-- pandas `groupby(ind).sum()` over the pair of columns: distinct keys in
ascending order (the default `sort=True`), each with the sum of the dependent
values of its rows. -/
def groupbySum (ind : List CellVal) (dep : List ℤ) : List (CellVal × ℤ) :=
  (sortBy cellLe (distinct ind)).map
    (fun k => (k, (((ind.zip dep).filter (fun p => decide (p.1 = k))).map (fun p => p.2)).sum))

/-- Grouping for `df.boxplot(column=dep, by=ind)`: the dependent values of
each group, keys ascending. -/
def groupValues (ind : List CellVal) (dep : List ℤ) : List (CellVal × List ℤ) :=
  (sortBy cellLe (distinct ind)).map
    (fun k => (k, ((ind.zip dep).filter (fun p => decide (p.1 = k))).map (fun p => p.2)))

/-- The closed set of plot kinds the pandas plot accessor accepts
(`_all_kinds`); any other kind raises `ValueError` before anything is drawn. -/
def pandas_plot_kinds : List String :=
  ["line", "bar", "barh", "kde", "density", "area", "hist", "box", "pie", "scatter", "hexbin"]

/-- Bin width of `visualize_numeric` (lines 44-48):
`int((np.max(x) - np.min(x)) / nbins)`, replaced by 1 when it is 0.  On
integer data the float quotient is the exact rational `(max-min)/nbins` and
`int()` truncates it toward zero, which is `Int.tdiv`. -/
def binWidth (x : List ℤ) (nbins : Nat) : ℤ :=
  let bw := (npMax x - npMin x).tdiv (nbins : ℤ)
  if bw = 0 then 1 else bw

/-- Bin edges of `visualize_numeric` (line 50):
`range(int(np.min(x) - 1), int(np.max(x) + bin_width), bin_width)`; on
integer data the `int()` coercions are the identity. -/
def binEdges (x : List ℤ) (nbins : Nat) : List ℤ :=
  pyrange (npMin x - 1) (npMax x + binWidth x nbins) (binWidth x nbins)

/-- Lower axis bound of the outlier trim (lines 56, 105, 108):
`np.min(x[x > np.percentile(x, cutoff*100)])`; `none` when the filtered
array is empty and numpy raises. -/
def trimLeft (x : List ℤ) (cutoff : ℚ) : Option ℤ :=
  listMin? (x.filter (fun v => decide (percentile x (cutoff * 100) < (v : ℚ))))

/-- Upper axis bound of the outlier trim (lines 57, 106, 109):
`np.max(x[x < np.percentile(x, (1-cutoff)*100)])`. -/
def trimRight (x : List ℤ) (cutoff : ℚ) : Option ℤ :=
  listMax? (x.filter (fun v => decide ((v : ℚ) < percentile x ((1 - cutoff) * 100))))

/-- Errors propagated from the underlying libraries (the code adds no
validation layer of its own). -/
inductive VizError where
  | keyError (column : String)
  | typeError (column : String)
  | valueError (msg : String)
deriving DecidableEq, Repr

/-- The data a call hands to the plotting layer. -/
inductive Rendered where
  | hist (data : List ℤ) (bins : List ℤ)
  | countsPlot (kind : String) (counts : List (CellVal × Nat))
  | scatter (x y : List ℤ)
  | boxplotBy (groups : List (CellVal × List ℤ))
  | groupPlot (kind : String) (data : List (CellVal × ℤ))
deriving DecidableEq, Repr

/-- Observable outcome of one successful visualization call: the plotted
data, the axis limits set (if any), title and labels, and the file path the
figure is saved to. -/
structure VizOutput where
  rendered : Rendered
  xlim : Option (ℤ × ℤ)
  ylim : Option (ℤ × ℤ)
  title : String
  xlabel : String
  ylabel : String
  path : String
deriving DecidableEq, Repr

/-- The `DataVisualizations` class: the held (sub)dataframe and the output
directory, both fixed at construction (`__init__`, lines 20-28; the
`os.makedirs` side effect creates the directory and holds no later state). -/
structure DataVisualizations where
  df : DataFrame
  output_directory : String
deriving DecidableEq, Repr

/-- `DataVisualizations.__init__` (lines 20-25): with `subsample < 100` the
dataframe is replaced by `df.sample(frac=subsample/100, random_state=...)`,
otherwise kept as is.  `random_state` seeds the (abstracted) random row
selection and does not affect anything the claims mention. -/
def DataVisualizations.init (df : DataFrame) (output_directory : String := "Output")
    (subsample : ℚ := 100) (random_state : Option Nat := none) : DataVisualizations :=
  if subsample < 100 then
    { df := df.sample (pandasSampleN (subsample / 100) df.nrows)
      output_directory := output_directory }
  else
    { df := df, output_directory := output_directory }

/-- `os.path.sep` on the posix host. -/
def ossep : String := "/"

/-- `visualize_numeric` (lines 31-67): histogram of a numeric column with
computed bin width and edges, optional percentile-based x-limit, fixed
title/labels, saved to `{output_directory}/{column}.png`. -/
def visualize_numeric (v : DataVisualizations) (column : String)
    (nbins : Nat := 100) (outlier_cutoff : ℚ := 0) : Except VizError VizOutput :=
  match v.df.get? column with
  | none => .error (.keyError column)
  | some cells =>
    match asNum? cells with
    | none => .error (.typeError column)
    | some x =>
      if x = [] then .error (.valueError "zero-size array to reduction operation")
      else if nbins = 0 then .error (.valueError "cannot convert float infinity to integer")
      else
        let bins := binEdges x nbins
        if 0 < outlier_cutoff then
          if 1 < outlier_cutoff then .error (.valueError "percentiles must be in the range 0 to 100")
          else
            match trimLeft x outlier_cutoff, trimRight x outlier_cutoff with
            | some left, some right =>
              .ok { rendered := .hist x bins
                    xlim := some (left, right)
                    ylim := none
                    title := "Distribution of data across " ++ column
                    xlabel := column
                    ylabel := "Frequency"
                    path := v.output_directory ++ ossep ++ column ++ ".png" }
            | _, _ => .error (.valueError "zero-size array to reduction operation")
        else
          .ok { rendered := .hist x bins
                xlim := none
                ylim := none
                title := "Distribution of data across " ++ column
                xlabel := column
                ylabel := "Frequency"
                path := v.output_directory ++ ossep ++ column ++ ".png" }

/-- `visualize_categorical` (lines 70-86): value counts of the column plotted
as the requested kind, saved to `{output_directory}/{kind}_{column}.png`. -/
def visualize_categorical (v : DataVisualizations) (column : String)
    (kind : String := "bar") : Except VizError VizOutput :=
  match v.df.get? column with
  | none => .error (.keyError column)
  | some cells =>
    if kind ∈ pandas_plot_kinds then
      .ok { rendered := .countsPlot kind (value_counts cells)
            xlim := none
            ylim := none
            title := "Distribution of data across " ++ column
            xlabel := column
            ylabel := "Frequency"
            path := v.output_directory ++ ossep ++ kind ++ "_" ++ column ++ ".png" }
    else .error (.valueError (kind ++ " is not a valid plot kind"))

/-- `visualize_ynum_to_xnum` (lines 89-121): scatter of two numeric columns
(`y` is read first in the source), optional independent percentile trims of
the x- and y-limits, saved to
`{output_directory}/{dependent}_{independent}.png`. -/
def visualize_ynum_to_xnum (v : DataVisualizations)
    (dependent_variable independent_variable : String)
    (outlier_cutoff : ℚ := 0) : Except VizError VizOutput :=
  match v.df.get? dependent_variable with
  | none => .error (.keyError dependent_variable)
  | some ycells =>
    match asNum? ycells with
    | none => .error (.typeError dependent_variable)
    | some y =>
      match v.df.get? independent_variable with
      | none => .error (.keyError independent_variable)
      | some xcells =>
        match asNum? xcells with
        | none => .error (.typeError independent_variable)
        | some x =>
          if 0 < outlier_cutoff then
            if 1 < outlier_cutoff then .error (.valueError "percentiles must be in the range 0 to 100")
            else
              match trimLeft x outlier_cutoff, trimRight x outlier_cutoff,
                    trimLeft y outlier_cutoff, trimRight y outlier_cutoff with
              | some xleft, some xright, some ybottom, some ytop =>
                .ok { rendered := .scatter x y
                      xlim := some (xleft, xright)
                      ylim := some (ybottom, ytop)
                      title := "Relationship between " ++ dependent_variable ++ " and " ++ independent_variable
                      xlabel := independent_variable
                      ylabel := dependent_variable
                      path := v.output_directory ++ ossep ++ dependent_variable ++ "_" ++ independent_variable ++ ".png" }
              | _, _, _, _ => .error (.valueError "zero-size array to reduction operation")
          else
            .ok { rendered := .scatter x y
                  xlim := none
                  ylim := none
                  title := "Relationship between " ++ dependent_variable ++ " and " ++ independent_variable
                  xlabel := independent_variable
                  ylabel := dependent_variable
                  path := v.output_directory ++ ossep ++ dependent_variable ++ "_" ++ independent_variable ++ ".png" }

/-- `visualize_ynum_to_xcat` (lines 124-146): a box plot of the dependent
column grouped by the independent one when `kind == "box"`, otherwise the
group-wise sums plotted as the requested kind; saved to
`{output_directory}/{kind}_{dependent}_{independent}.png`. -/
def visualize_ynum_to_xcat (v : DataVisualizations)
    (dependent_variable independent_variable : String)
    (kind : String := "bar") : Except VizError VizOutput :=
  match v.df.get? independent_variable with
  | none => .error (.keyError independent_variable)
  | some indCells =>
    match v.df.get? dependent_variable with
    | none => .error (.keyError dependent_variable)
    | some depCells =>
      match asNum? depCells with
      | none => .error (.typeError dependent_variable)
      | some dep =>
        let body : Except VizError Rendered :=
          if kind = "box" then .ok (.boxplotBy (groupValues indCells dep))
          else if kind ∈ pandas_plot_kinds then .ok (.groupPlot kind (groupbySum indCells dep))
          else .error (.valueError (kind ++ " is not a valid plot kind"))
        match body with
        | .error e => .error e
        | .ok r =>
          .ok { rendered := r
                xlim := none
                ylim := none
                title := "Relationship between " ++ dependent_variable ++ " and " ++ independent_variable
                xlabel := independent_variable
                ylabel := dependent_variable
                path := v.output_directory ++ ossep ++ kind ++ "_" ++ dependent_variable ++ "_" ++ independent_variable ++ ".png" }

/-- One invocation of a visualization method with its arguments. -/
inductive Call where
  | numeric (column : String) (nbins : Nat) (outlier_cutoff : ℚ)
  | categorical (column : String) (kind : String)
  | ynumXnum (dependent_variable independent_variable : String) (outlier_cutoff : ℚ)
  | ynumXcat (dependent_variable independent_variable : String) (kind : String)
deriving DecidableEq, Repr

/-- Dispatch a call to its method. -/
def dispatch (v : DataVisualizations) : Call → Except VizError VizOutput
  | .numeric c n oc => visualize_numeric v c n oc
  | .categorical c k => visualize_categorical v c k
  | .ynumXnum d i oc => visualize_ynum_to_xnum v d i oc
  | .ynumXcat d i k => visualize_ynum_to_xcat v d i k

/-- The filesystem, as the list of files under the output directory, without
duplicates.  `savefig` overwrites silently, so writing an existing path
leaves the listing unchanged. -/
def writeFile (fs : List String) (p : String) : List String :=
  if p ∈ fs then fs else fs ++ [p]

/-- One method call against the visualizer and the filesystem: a successful
call saves its figure (`plt.savefig` / `fig.savefig`, the single write of
each method); a failing call raises before the save and writes nothing.  The
methods never assign to `self`, so the visualizer comes back as is. -/
def runCall (v : DataVisualizations) (fs : List String) (c : Call) :
    DataVisualizations × List String × Except VizError VizOutput :=
  match dispatch v c with
  | .ok out => (v, writeFile fs out.path, .ok out)
  | .error e => (v, fs, .error e)

/-- Follows the spec's words (not the method bodies): the documented naming
convention `{output_dir}/{column}.png`, `{output_dir}/{kind}_{column}.png`,
`{output_dir}/{dependent}_{independent}.png`,
`{output_dir}/{kind}_{dependent}_{independent}.png`. -/
def specPath (v : DataVisualizations) : Call → String
  | .numeric c _ _ => v.output_directory ++ "/" ++ c ++ ".png"
  | .categorical c k => v.output_directory ++ "/" ++ k ++ "_" ++ c ++ ".png"
  | .ynumXnum d i _ => v.output_directory ++ "/" ++ d ++ "_" ++ i ++ ".png"
  | .ynumXcat d i k => v.output_directory ++ "/" ++ k ++ "_" ++ d ++ "_" ++ i ++ ".png"

/-- The rendered data of a call's result. -/
def renderedOf (r : Except VizError VizOutput) : Except VizError Rendered :=
  Except.map VizOutput.rendered r

/-- Whether a call raised (propagated a library error). -/
def vizFails : Except VizError VizOutput → Bool
  | .error _ => true
  | .ok _ => false

/-- The spec's example numeric column: "age" = [20, 21, ..., 29]. -/
def ageCol : List ℤ := [20, 21, 22, 23, 24, 25, 26, 27, 28, 29]

/-- The spec's example categorical column: counts red:3, blue:5, green:2. -/
def colorCells : List CellVal :=
  [.str "red", .str "blue", .str "red", .str "blue", .str "blue",
   .str "green", .str "red", .str "blue", .str "green", .str "blue"]

/-- A 10-row example dataframe with the spec's "age" and "color" columns. -/
def exDf : DataFrame :=
  ⟨[("age", ageCol.map .num), ("color", colorCells)]⟩

/-- Example visualizer over `exDf` with the default output directory. -/
def exViz : DataVisualizations := DataVisualizations.init exDf

/-- The bin edges `visualize_numeric` computes on `ageCol` with `nbins = 5`:
`range(19, 30, 1)`. -/
def exBins : List ℤ := [19, 20, 21, 22, 23, 24, 25, 26, 27, 28, 29]

/-- Output of `visualize_numeric exViz "age" 5 0`. -/
def exNumOut0 : VizOutput :=
  { rendered := .hist ageCol exBins
    xlim := none
    ylim := none
    title := "Distribution of data across age"
    xlabel := "age"
    ylabel := "Frequency"
    path := "Output/age.png" }

/-- Output of `visualize_numeric exViz "age" 5 (1/10)`. -/
def exNumOutC : VizOutput :=
  { rendered := .hist ageCol exBins
    xlim := some (21, 28)
    ylim := none
    title := "Distribution of data across age"
    xlabel := "age"
    ylabel := "Frequency"
    path := "Output/age.png" }

/-- Output of `visualize_ynum_to_xnum exViz "age" "age" 0`. -/
def exXYOut0 : VizOutput :=
  { rendered := .scatter ageCol ageCol
    xlim := none
    ylim := none
    title := "Relationship between age and age"
    xlabel := "age"
    ylabel := "age"
    path := "Output/age_age.png" }

/-- Output of `visualize_ynum_to_xnum exViz "age" "age" (1/10)`. -/
def exXYOutC : VizOutput :=
  { rendered := .scatter ageCol ageCol
    xlim := some (21, 28)
    ylim := some (21, 28)
    title := "Relationship between age and age"
    xlabel := "age"
    ylabel := "age"
    path := "Output/age_age.png" }

/-- Output of `visualize_categorical exViz "color" "bar"`. -/
def exCatOut : VizOutput :=
  { rendered := .countsPlot "bar" [(.str "blue", 5), (.str "red", 3), (.str "green", 2)]
    xlim := none
    ylim := none
    title := "Distribution of data across color"
    xlabel := "color"
    ylabel := "Frequency"
    path := "Output/bar_color.png" }

theorem foldl_min_le (t : List ℤ) (x : ℤ) : t.foldl min x ≤ x := by
  induction t generalizing x with
  | nil => simp
  | cons y t ih => exact le_trans (ih (min x y)) (min_le_left x y)

theorem le_foldl_max (t : List ℤ) (x : ℤ) : x ≤ t.foldl max x := by
  induction t generalizing x with
  | nil => simp
  | cons y t ih => exact le_trans (le_max_left x y) (ih (max x y))

theorem npMin_le_npMax {x : List ℤ} (hx : x ≠ []) : npMin x ≤ npMax x := by
  cases x with
  | nil => exact absurd rfl hx
  | cons a t => exact le_trans (foldl_min_le t a) (le_foldl_max t a)

theorem foldl_min_mem (t : List ℤ) (x : ℤ) : t.foldl min x = x ∨ t.foldl min x ∈ t := by
  induction t generalizing x with
  | nil => exact Or.inl rfl
  | cons y t ih =>
    rcases ih (min x y) with h | h
    · rcases min_choice x y with hxy | hxy
      · exact Or.inl (by rw [List.foldl_cons, h, hxy])
      · exact Or.inr (by rw [List.foldl_cons, h, hxy]; exact List.mem_cons_self y t)
    · exact Or.inr (List.mem_cons_of_mem y h)

theorem foldl_max_mem (t : List ℤ) (x : ℤ) : t.foldl max x = x ∨ t.foldl max x ∈ t := by
  induction t generalizing x with
  | nil => exact Or.inl rfl
  | cons y t ih =>
    rcases ih (max x y) with h | h
    · rcases max_choice x y with hxy | hxy
      · exact Or.inl (by rw [List.foldl_cons, h, hxy])
      · exact Or.inr (by rw [List.foldl_cons, h, hxy]; exact List.mem_cons_self y t)
    · exact Or.inr (List.mem_cons_of_mem y h)

theorem listMin?_mem {xs : List ℤ} {m : ℤ} (h : listMin? xs = some m) : m ∈ xs := by
  cases xs with
  | nil => simp [listMin?] at h
  | cons a t =>
    have hm : t.foldl min a = m := by
      have h2 := h
      simp [listMin?] at h2
      exact h2
    rcases foldl_min_mem t a with h1 | h1
    · rw [← hm, h1]; exact List.mem_cons_self a t
    · rw [← hm]; exact List.mem_cons_of_mem a h1

theorem listMax?_mem {xs : List ℤ} {m : ℤ} (h : listMax? xs = some m) : m ∈ xs := by
  cases xs with
  | nil => simp [listMax?] at h
  | cons a t =>
    have hm : t.foldl max a = m := by
      have h2 := h
      simp [listMax?] at h2
      exact h2
    rcases foldl_max_mem t a with h1 | h1
    · rw [← hm, h1]; exact List.mem_cons_self a t
    · rw [← hm]; exact List.mem_cons_of_mem a h1

theorem trimLeft_gt {x : List ℤ} {c : ℚ} {l : ℤ} (h : trimLeft x c = some l) :
    percentile x (c * 100) < (l : ℚ) := by
  have hm := listMin?_mem h
  have hf := List.of_mem_filter hm
  exact of_decide_eq_true hf

theorem trimRight_lt {x : List ℤ} {c : ℚ} {r : ℤ} (h : trimRight x c = some r) :
    (r : ℚ) < percentile x ((1 - c) * 100) := by
  have hm := listMax?_mem h
  have hf := List.of_mem_filter hm
  exact of_decide_eq_true hf

theorem one_le_binWidth (x : List ℤ) (n : Nat) (hx : x ≠ []) : 1 ≤ binWidth x n := by
  have hR : 0 ≤ npMax x - npMin x := by
    have := npMin_le_npMax hx
    omega
  have hnn : 0 ≤ (npMax x - npMin x).tdiv (n : ℤ) :=
    Int.tdiv_nonneg hR (Int.ofNat_nonneg n)
  by_cases hbw : (npMax x - npMin x).tdiv (n : ℤ) = 0
  · simp [binWidth, hbw]
  · simp only [binWidth, if_neg hbw]
    omega

theorem pyrange_head (start stop step : Int) (h1 : 0 < step) (h2 : start < stop) :
    (pyrange start stop step).head? = some start := by
  unfold pyrange pyrangeLen
  rw [if_neg (by push_neg; exact ⟨h1, h2⟩)]
  simp [List.range_succ_eq_map]

theorem pyrange_mem {start stop step e : Int} (h1 : 0 < step)
    (he : e ∈ pyrange start stop step) :
    start ≤ e ∧ e < stop ∧ ∃ k : Nat, e = start + step * (k : Int) := by
  unfold pyrange at he
  obtain ⟨k, hk, hkeq⟩ := List.mem_map.mp he
  have hlen := List.mem_range.mp hk
  unfold pyrangeLen at hlen
  split at hlen
  · omega
  · rename_i hcond
    push_neg at hcond
    have hss : start < stop := hcond.2
    have hdiv : k ≤ (stop - start - 1).toNat / step.toNat := by omega
    have hmulNat : k * step.toNat ≤ (stop - start - 1).toNat :=
      (Nat.le_div_iff_mul_le (by omega : 0 < step.toNat)).mp hdiv
    have hmul : (k : Int) * step ≤ stop - start - 1 := by
      have hcast : ((k * step.toNat : Nat) : Int) ≤ (((stop - start - 1).toNat : Nat) : Int) :=
        Int.ofNat_le.mpr hmulNat
      push_cast at hcast
      rw [Int.toNat_of_nonneg h1.le, Int.toNat_of_nonneg (by omega : (0:Int) ≤ stop - start - 1)] at hcast
      exact hcast
    have hnn : 0 ≤ step * (k : Int) := mul_nonneg h1.le (Int.ofNat_nonneg k)
    refine ⟨by omega, ?_, ⟨k, hkeq.symm⟩⟩
    have heq : e = start + step * (k : Int) := hkeq.symm
    rw [heq, mul_comm step (k : Int)]
    omega

theorem pyrange_reaches (start stop step : Int) (h1 : 0 < step) (h2 : start < stop) :
    ∃ e ∈ pyrange start stop step, stop - step ≤ e := by
  have hcond : ¬(step ≤ 0 ∨ stop ≤ start) := by push_neg; exact ⟨h1, h2⟩
  set N := (stop - start - 1).toNat with hN
  set d := step.toNat with hd
  set m := N / d with hm
  refine ⟨start + step * (m : Int), ?_, ?_⟩
  · unfold pyrange
    refine List.mem_map.mpr ⟨m, List.mem_range.mpr ?_, rfl⟩
    unfold pyrangeLen
    rw [if_neg hcond, ← hN, ← hd]
    omega
  · have hdpos : 0 < d := by omega
    have h1' : d * m + N % d = N := Nat.div_add_mod N d
    have h2' : N % d < d := Nat.mod_lt N hdpos
    have hx := congrArg (fun t : Nat => (t : Int)) h1'
    simp only [Nat.cast_add, Nat.cast_mul] at hx
    have hdi : ((d : Nat) : Int) = step := Int.toNat_of_nonneg h1.le
    have hNi : ((N : Nat) : Int) = stop - start - 1 :=
      Int.toNat_of_nonneg (by omega : (0:Int) ≤ stop - start - 1)
    rw [hdi, hNi] at hx
    have hri : ((N % d : Nat) : Int) < ((d : Nat) : Int) := Int.ofNat_lt.mpr h2'
    rw [hdi] at hri
    have hri' : ((N % d : Nat) : Int) + 1 ≤ step := Int.lt_iff_add_one_le.mp hri
    linarith

theorem pyround_le_floor_add_one (q : ℚ) : pyroundHalfEven q ≤ ⌊q⌋ + 1 := by
  unfold pyroundHalfEven
  split
  · omega
  · split
    · omega
    · split <;> omega

theorem floor_le_pyround (q : ℚ) : ⌊q⌋ ≤ pyroundHalfEven q := by
  unfold pyroundHalfEven
  split
  · omega
  · split
    · omega
    · split <;> omega

theorem writeFile_mem (fs : List String) (p : String) : p ∈ writeFile fs p := by
  unfold writeFile
  split
  · assumption
  · simp

theorem writeFile_idem (fs : List String) (p : String) :
    writeFile (writeFile fs p) p = writeFile fs p := by
  show (if p ∈ writeFile fs p then writeFile fs p else writeFile fs p ++ [p]) = writeFile fs p
  rw [if_pos (writeFile_mem fs p)]

theorem writeFile_length (fs : List String) (p : String) :
    (writeFile fs p).length ≤ fs.length + 1 := by
  unfold writeFile
  split
  · omega
  · simp

/-- C1: for every numeric column with value range R and every requested bin
count N, `visualize_numeric` computes the histogram bin width as
`floor(R/N)`, and uses 1 instead whenever that floor is 0 (the `int()`
truncation in the source coincides with the floor because the range is
nonnegative). -/
theorem binWidth_eq_floor_range_div (x : List ℤ) (nbins : Nat) (hx : x ≠ []) :
    binWidth x nbins =
      if ⌊((npMax x - npMin x : ℤ) : ℚ) / ((nbins : ℕ) : ℚ)⌋ = 0 then 1
      else ⌊((npMax x - npMin x : ℤ) : ℚ) / ((nbins : ℕ) : ℚ)⌋ := by
  have hR : (0:ℤ) ≤ npMax x - npMin x := by
    have := npMin_le_npMax hx
    omega
  have hb : (npMax x - npMin x).tdiv (nbins : ℤ)
      = ⌊((npMax x - npMin x : ℤ) : ℚ) / ((nbins : ℕ) : ℚ)⌋ := by
    rw [Int.tdiv_eq_ediv hR (Int.ofNat_nonneg nbins), Rat.floor_intCast_div_natCast]
  simp only [binWidth, hb]

/-- Witness for C1 at the spec's example: "age" = [20..29], nbins = 5 gives
range 9 and bin width `floor(9/5) = 1`. -/
theorem binWidth_eq_floor_range_div_witness :
    ageCol ≠ [] ∧ binWidth ageCol 5 = 1
    ∧ ⌊((npMax ageCol - npMin ageCol : ℤ) : ℚ) / ((5 : ℕ) : ℚ)⌋ = 1
    ∧ binWidth ageCol 5 =
        (if ⌊((npMax ageCol - npMin ageCol : ℤ) : ℚ) / ((5 : ℕ) : ℚ)⌋ = 0 then 1
         else ⌊((npMax ageCol - npMin ageCol : ℤ) : ℚ) / ((5 : ℕ) : ℚ)⌋) :=
  ⟨by decide, by decide,
   by
    have h9 : (npMax ageCol - npMin ageCol : ℤ) = 9 := by decide
    rw [h9]
    norm_num,
   binWidth_eq_floor_range_div ageCol 5 (by decide)⟩

/-- C3: the bin edges built by `visualize_numeric` form the arithmetic
progression `range(min - 1, max + width, width)`: they start one unit below
the column minimum, step by the computed bin width, stay below the range
stop `max + width` (which is strictly above the column maximum, the spec's
"just past" it), and the last edge is at or above the maximum; on the
column [20..29] with nbins = 5 the bin width is 1 and the edges are
19, 20, ..., 29 (the range stop being 30). -/
theorem binEdges_span (x : List ℤ) (nbins : Nat) (hx : x ≠ []) :
    binEdges x nbins =
      pyrange (npMin x - 1) (npMax x + binWidth x nbins) (binWidth x nbins)
    ∧ npMin x - 1 < npMin x
    ∧ npMax x < npMax x + binWidth x nbins
    ∧ (binEdges x nbins).head? = some (npMin x - 1)
    ∧ (∀ e ∈ binEdges x nbins,
        npMin x - 1 ≤ e ∧ e < npMax x + binWidth x nbins
        ∧ ∃ k : Nat, e = npMin x - 1 + binWidth x nbins * (k : Int))
    ∧ (∃ e ∈ binEdges x nbins, npMax x ≤ e)
    ∧ (binWidth ageCol 5 = 1 ∧ binEdges ageCol 5 = exBins) := by
  have hbw := one_le_binWidth x nbins hx
  have hmm := npMin_le_npMax hx
  have hlt : npMin x - 1 < npMax x + binWidth x nbins := by omega
  refine ⟨rfl, by omega, by omega, ?_, ?_, ?_, by decide, by decide⟩
  · unfold binEdges
    exact pyrange_head _ _ _ (by omega) hlt
  · intro e he
    unfold binEdges at he
    have hm := pyrange_mem (show (0:ℤ) < binWidth x nbins by omega) he
    exact ⟨hm.1, hm.2.1, hm.2.2⟩
  · unfold binEdges
    obtain ⟨e, hmem, hge⟩ :=
      pyrange_reaches (npMin x - 1) (npMax x + binWidth x nbins) (binWidth x nbins)
        (by omega) hlt
    exact ⟨e, hmem, by omega⟩

/-- Witness for C3 at the spec's example column. -/
theorem binEdges_span_witness :
    ageCol ≠ []
    ∧ binWidth ageCol 5 = 1
    ∧ binEdges ageCol 5 = exBins
    ∧ npMin ageCol - 1 < npMin ageCol
    ∧ npMax ageCol < npMax ageCol + binWidth ageCol 5
    ∧ (binEdges ageCol 5).head? = some (npMin ageCol - 1)
    ∧ (29 : ℤ) ∈ binEdges ageCol 5 ∧ npMax ageCol ≤ 29 :=
  ⟨by decide, by decide, by decide,
   (binEdges_span ageCol 5 (by decide)).2.1,
   (binEdges_span ageCol 5 (by decide)).2.2.1,
   (binEdges_span ageCol 5 (by decide)).2.2.2.1,
   by decide, by decide⟩

theorem sample_nrows (df : DataFrame) (k : Nat) (hk : k ≤ df.nrows) :
    (df.sample k).nrows = k := by
  obtain ⟨cols⟩ := df
  cases cols with
  | nil =>
    simp [DataFrame.nrows, DataFrame.sample] at hk ⊢
    omega
  | cons c rest =>
    simp [DataFrame.nrows, DataFrame.sample, List.length_take] at hk ⊢
    omega

/-- C4: constructing the visualizer with subsample percentage p < 100 holds a
dataset of `round(p/100 * n)` rows (Python rounding, which is nonnegative
here), and constructing it with p = 100 keeps the original dataset
unchanged. -/
theorem subsample_row_count (df : DataFrame) (dir : String) (p : ℚ) (rs : Option Nat)
    (hp0 : 0 ≤ p) (hp : p < 100) :
    (DataVisualizations.init df dir p rs).df.nrows
      = (pyroundHalfEven (p / 100 * ((df.nrows : ℕ) : ℚ))).toNat
    ∧ 0 ≤ pyroundHalfEven (p / 100 * ((df.nrows : ℕ) : ℚ))
    ∧ (DataVisualizations.init df dir 100 rs).df = df
    ∧ (DataVisualizations.init df dir 100 rs).df.nrows = df.nrows := by
  have hq0 : (0:ℚ) ≤ p / 100 * ((df.nrows : ℕ) : ℚ) :=
    mul_nonneg (div_nonneg hp0 (by norm_num)) (Nat.cast_nonneg _)
  have hr0 : 0 ≤ pyroundHalfEven (p / 100 * ((df.nrows : ℕ) : ℚ)) :=
    le_trans (Int.floor_nonneg.mpr hq0) (floor_le_pyround _)
  have hfull : (DataVisualizations.init df dir 100 rs).df = df := by
    unfold DataVisualizations.init
    rw [if_neg (by norm_num)]
  refine ⟨?_, hr0, hfull, by rw [hfull]⟩
  have hkle : (pyroundHalfEven (p / 100 * ((df.nrows : ℕ) : ℚ))).toNat ≤ df.nrows := by
    by_cases hn : df.nrows = 0
    · have hz : pyroundHalfEven (p / 100 * ((0 : ℕ) : ℚ)) = 0 := by
        norm_num [pyroundHalfEven]
      rw [hn, hz]
      exact le_refl 0
    · have hpos : (0:ℚ) < ((df.nrows : ℕ) : ℚ) := by
        exact_mod_cast Nat.pos_of_ne_zero hn
      have h1 : p / 100 < 1 := (div_lt_one (by norm_num)).mpr hp
      have hqn : p / 100 * ((df.nrows : ℕ) : ℚ) < ((df.nrows : ℕ) : ℚ) := by
        calc p / 100 * ((df.nrows : ℕ) : ℚ) < 1 * ((df.nrows : ℕ) : ℚ) :=
              mul_lt_mul_of_pos_right h1 hpos
          _ = ((df.nrows : ℕ) : ℚ) := one_mul _
      have hfl : ⌊p / 100 * ((df.nrows : ℕ) : ℚ)⌋ < (df.nrows : ℤ) :=
        Int.floor_lt.mpr (by exact_mod_cast hqn)
      have hle := pyround_le_floor_add_one (p / 100 * ((df.nrows : ℕ) : ℚ))
      omega
  unfold DataVisualizations.init
  rw [if_pos hp]
  exact sample_nrows df _ hkle

/-- Witness for C4: a 10-row dataframe subsampled at 40 percent holds
`round(0.4 * 10) = 4` rows, and subsampling at 100 keeps it unchanged. -/
theorem subsample_row_count_witness :
    (DataVisualizations.init exDf "Output" 40 none).df.nrows
      = (pyroundHalfEven (40 / 100 * ((exDf.nrows : ℕ) : ℚ))).toNat
    ∧ (pyroundHalfEven (40 / 100 * ((exDf.nrows : ℕ) : ℚ))).toNat = 4
    ∧ (DataVisualizations.init exDf "Output" 100 none).df = exDf :=
  ⟨(subsample_row_count exDf "Output" 40 none (by norm_num) (by norm_num)).1,
   by
    have h10 : exDf.nrows = 10 := by decide
    rw [h10]
    have h4 : pyroundHalfEven (40 / 100 * ((10 : ℕ) : ℚ)) = 4 := by
      norm_num [pyroundHalfEven]
    rw [h4]
    rfl,
   (subsample_row_count exDf "Output" 40 none (by norm_num) (by norm_num)).2.2.1⟩

theorem visualize_numeric_path {v : DataVisualizations} {col : String} {n : Nat} {oc : ℚ}
    {out : VizOutput} (h : visualize_numeric v col n oc = .ok out) :
    out.path = v.output_directory ++ "/" ++ col ++ ".png" := by
  unfold visualize_numeric at h
  repeat' split at h
  all_goals try simp_all [ossep]
  all_goals subst h
  all_goals rfl

theorem visualize_categorical_path {v : DataVisualizations} {col kind : String}
    {out : VizOutput} (h : visualize_categorical v col kind = .ok out) :
    out.path = v.output_directory ++ "/" ++ kind ++ "_" ++ col ++ ".png" := by
  unfold visualize_categorical at h
  repeat' split at h
  all_goals try simp_all [ossep]
  all_goals subst h
  all_goals rfl

theorem visualize_ynum_to_xnum_path {v : DataVisualizations} {dep ind : String} {oc : ℚ}
    {out : VizOutput} (h : visualize_ynum_to_xnum v dep ind oc = .ok out) :
    out.path = v.output_directory ++ "/" ++ dep ++ "_" ++ ind ++ ".png" := by
  unfold visualize_ynum_to_xnum at h
  repeat' split at h
  all_goals try simp_all [ossep]
  all_goals subst h
  all_goals rfl

theorem visualize_ynum_to_xcat_path {v : DataVisualizations} {dep ind kind : String}
    {out : VizOutput} (h : visualize_ynum_to_xcat v dep ind kind = .ok out) :
    out.path = v.output_directory ++ "/" ++ kind ++ "_" ++ dep ++ "_" ++ ind ++ ".png" := by
  unfold visualize_ynum_to_xcat at h
  repeat' split at h
  all_goals try simp_all [ossep]
  all_goals subst h
  all_goals rfl

/-- C6: every successful call writes exactly one file, at the path given by
the documented naming convention, and an identical second call overwrites
that file instead of creating another one. -/
theorem each_call_writes_one_file (v : DataVisualizations) (fs : List String) (c : Call)
    (out : VizOutput) (h : dispatch v c = .ok out) :
    out.path = specPath v c
    ∧ (runCall v fs c).2.1 = writeFile fs (specPath v c)
    ∧ (runCall v fs c).2.1.length ≤ fs.length + 1
    ∧ specPath v c ∈ (runCall v fs c).2.1
    ∧ (runCall v (runCall v fs c).2.1 c).2.1 = (runCall v fs c).2.1 := by
  have hpath : out.path = specPath v c := by
    cases c with
    | numeric a b d => exact visualize_numeric_path h
    | categorical a k => exact visualize_categorical_path h
    | ynumXnum a b d => exact visualize_ynum_to_xnum_path h
    | ynumXcat a b k => exact visualize_ynum_to_xcat_path h
  have hrun : runCall v fs c = (v, writeFile fs out.path, .ok out) := by
    unfold runCall
    rw [h]
  have hrun2 : runCall v (writeFile fs out.path) c
      = (v, writeFile (writeFile fs out.path) out.path, .ok out) := by
    unfold runCall
    rw [h]
  refine ⟨hpath, ?_, ?_, ?_, ?_⟩
  · rw [hrun, ← hpath]
  · rw [hrun]
    exact writeFile_length fs out.path
  · rw [hrun, ← hpath]
    exact writeFile_mem fs out.path
  · rw [hrun, hrun2]
    exact writeFile_idem fs out.path

/-- Witness for C6: the categorical call on the example dataframe writes
exactly `Output/bar_color.png`, and a second identical call leaves the
file listing unchanged. -/
theorem each_call_writes_one_file_witness :
    exCatOut.path = specPath exViz (Call.categorical "color" "bar")
    ∧ (runCall exViz [] (Call.categorical "color" "bar")).2.1
        = writeFile [] (specPath exViz (Call.categorical "color" "bar"))
    ∧ (runCall exViz [] (Call.categorical "color" "bar")).2.1.length
        ≤ ([] : List String).length + 1
    ∧ specPath exViz (Call.categorical "color" "bar")
        ∈ (runCall exViz [] (Call.categorical "color" "bar")).2.1
    ∧ (runCall exViz (runCall exViz [] (Call.categorical "color" "bar")).2.1
        (Call.categorical "color" "bar")).2.1
      = (runCall exViz [] (Call.categorical "color" "bar")).2.1 :=
  each_call_writes_one_file exViz [] (Call.categorical "color" "bar") exCatOut (by decide)

/-- C10: a failing visualization call leaves the visualizer's held dataset
and output directory unchanged and writes no file, so any subsequent call
behaves exactly as if the failed call had never happened. -/
theorem failed_call_preserves_state (v : DataVisualizations) (fs : List String) (c : Call)
    (e : VizError) (h : (runCall v fs c).2.2 = .error e) :
    (runCall v fs c).1 = v
    ∧ (runCall v fs c).2.1 = fs
    ∧ ∀ c2 : Call, runCall (runCall v fs c).1 (runCall v fs c).2.1 c2 = runCall v fs c2 := by
  unfold runCall at h
  cases hd : dispatch v c with
  | ok out =>
    rw [hd] at h
    simp at h
  | error e2 =>
    unfold runCall
    rw [hd]
    simp

/-- Witness for C10: a call naming an unknown column fails with a key
error, changes nothing, and the next call runs as if it never happened. -/
theorem failed_call_preserves_state_witness :
    (runCall exViz [] (Call.numeric "height" 100 0)).2.2 = .error (.keyError "height")
    ∧ (runCall exViz [] (Call.numeric "height" 100 0)).1 = exViz
    ∧ (runCall exViz [] (Call.numeric "height" 100 0)).2.1 = []
    ∧ runCall (runCall exViz [] (Call.numeric "height" 100 0)).1
        (runCall exViz [] (Call.numeric "height" 100 0)).2.1 (Call.categorical "color" "bar")
      = runCall exViz [] (Call.categorical "color" "bar") := by
  have h := failed_call_preserves_state exViz [] (Call.numeric "height" 100 0)
    (.keyError "height") (by decide)
  exact ⟨by decide, h.1, h.2.1, h.2.2 (Call.categorical "color" "bar")⟩

/-- C9: a chart kind outside the closed supported set makes both
kind-taking methods fail with an error instead of silently defaulting to a
supported kind. -/
theorem unsupported_kind_fails (v : DataVisualizations) (col dep ind kind : String)
    (h : kind ∉ pandas_plot_kinds) :
    vizFails (visualize_categorical v col kind) = true
    ∧ vizFails (visualize_ynum_to_xcat v dep ind kind) = true := by
  constructor
  · unfold visualize_categorical
    split
    · rfl
    · rw [if_neg h]
      rfl
  · unfold visualize_ynum_to_xcat
    have hbox : kind ≠ "box" := by
      intro hk
      exact h (by rw [hk]; decide)
    split
    · rfl
    · split
      · rfl
      · split
        · rfl
        · rw [if_neg hbox, if_neg h]
          rfl

/-- Witness for C9: the kind "foo" is rejected by both methods. -/
theorem unsupported_kind_fails_witness :
    vizFails (visualize_categorical exViz "color" "foo") = true
    ∧ vizFails (visualize_ynum_to_xcat exViz "age" "color" "foo") = true :=
  unsupported_kind_fails exViz "color" "age" "color" "foo" (by decide)

/-- C8: `visualize_ynum_to_xcat` renders a box plot of the dependent column
grouped by the independent one when kind is "box", and for every other
(supported) kind it groups rows by the independent column, sums the
dependent column per group, and renders that kind over the grouped sums. -/
theorem box_vs_grouped_sum (v : DataVisualizations) (dep ind kind : String)
    (indCells depCells : List CellVal) (depv : List ℤ)
    (hind : v.df.get? ind = some indCells)
    (hdep : v.df.get? dep = some depCells)
    (hnum : asNum? depCells = some depv) :
    (kind = "box" →
      renderedOf (visualize_ynum_to_xcat v dep ind kind)
        = .ok (.boxplotBy (groupValues indCells depv)))
    ∧ (kind ≠ "box" → kind ∈ pandas_plot_kinds →
      renderedOf (visualize_ynum_to_xcat v dep ind kind)
        = .ok (.groupPlot kind (groupbySum indCells depv))) := by
  constructor
  · intro hk
    subst hk
    unfold visualize_ynum_to_xcat
    simp only [hind, hdep, hnum]
    rfl
  · intro hk hkin
    unfold visualize_ynum_to_xcat
    simp only [hind, hdep, hnum]
    rw [if_neg hk, if_pos hkin]
    rfl

/-- Witness for C8 on the example dataframe, at kinds "box" and "bar". -/
theorem box_vs_grouped_sum_witness :
    renderedOf (visualize_ynum_to_xcat exViz "age" "color" "box")
      = .ok (.boxplotBy (groupValues colorCells ageCol))
    ∧ renderedOf (visualize_ynum_to_xcat exViz "age" "color" "bar")
      = .ok (.groupPlot "bar" (groupbySum colorCells ageCol)) :=
  ⟨(box_vs_grouped_sum exViz "age" "color" "box" colorCells (ageCol.map .num) ageCol
      (by decide) (by decide) (by decide)).1 rfl,
   (box_vs_grouped_sum exViz "age" "color" "bar" colorCells (ageCol.map .num) ageCol
      (by decide) (by decide) (by decide)).2 (by decide) (by decide)⟩

/-- C7: on the column with counts red:3, blue:5, green:2, the bar call
produces the file "bar_color.png" whose bars assign height 3 to red, 5 to
blue and 2 to green, displayed in descending value-count order
(blue, red, green). -/
theorem categorical_bar_example :
    visualize_categorical exViz "color" "bar" = .ok exCatOut
    ∧ exCatOut.path = "Output/bar_color.png"
    ∧ exCatOut.rendered
        = .countsPlot "bar" [(.str "blue", 5), (.str "red", 3), (.str "green", 2)]
    ∧ (value_counts colorCells).lookup (.str "red") = some 3
    ∧ (value_counts colorCells).lookup (.str "blue") = some 5
    ∧ (value_counts colorCells).lookup (.str "green") = some 2
    ∧ (value_counts colorCells).map (fun p => p.2) = [5, 3, 2] :=
  ⟨by decide, by decide, by decide, by decide, by decide, by decide, by decide⟩

/-- C5: with outlier_cutoff = 0 neither numeric method sets any axis limit:
the full data range is shown. -/
theorem zero_cutoff_no_clipping (v : DataVisualizations) (column depv indv : String)
    (nbins : Nat) (out1 out2 : VizOutput)
    (h1 : visualize_numeric v column nbins 0 = .ok out1)
    (h2 : visualize_ynum_to_xnum v depv indv 0 = .ok out2) :
    out1.xlim = none ∧ out1.ylim = none ∧ out2.xlim = none ∧ out2.ylim = none := by
  have hx1 : out1.xlim = none ∧ out1.ylim = none := by
    unfold visualize_numeric at h1
    repeat' split at h1
    all_goals try simp_all
    all_goals subst h1
    all_goals exact ⟨rfl, rfl⟩
  have hx2 : out2.xlim = none ∧ out2.ylim = none := by
    unfold visualize_ynum_to_xnum at h2
    repeat' split at h2
    all_goals try simp_all
    all_goals subst h2
    all_goals exact ⟨rfl, rfl⟩
  exact ⟨hx1.1, hx1.2, hx2.1, hx2.2⟩

/-- Witness for C5: both zero-cutoff calls on the example dataframe succeed
with no axis limits set. -/
theorem zero_cutoff_no_clipping_witness :
    visualize_numeric exViz "age" 5 0 = .ok exNumOut0
    ∧ visualize_ynum_to_xnum exViz "age" "age" 0 = .ok exXYOut0
    ∧ exNumOut0.xlim = none ∧ exNumOut0.ylim = none
    ∧ exXYOut0.xlim = none ∧ exXYOut0.ylim = none := by
  have h := zero_cutoff_no_clipping exViz "age" "age" "age" 5 exNumOut0 exXYOut0
    (by decide) (by decide)
  exact ⟨by decide, by decide, h.1, h.2.1, h.2.2.1, h.2.2.2⟩

theorem trimLeft_excludes {x : List ℤ} {c : ℚ} {l : ℤ} (h : trimLeft x c = some l) :
    ∀ w ∈ x, (w : ℚ) ≤ percentile x (c * 100) → w < l := by
  intro w _ hw
  have hPl := trimLeft_gt h
  have hq : (w : ℚ) < (l : ℚ) := lt_of_le_of_lt hw hPl
  exact_mod_cast hq

theorem trimRight_excludes {x : List ℤ} {c : ℚ} {r : ℤ} (h : trimRight x c = some r) :
    ∀ w ∈ x, percentile x ((1 - c) * 100) ≤ (w : ℚ) → r < w := by
  intro w _ hw
  have hPr := trimRight_lt h
  have hq : (r : ℚ) < (w : ℚ) := lt_of_lt_of_le hPr hw
  exact_mod_cast hq

theorem visualize_numeric_xlim {v : DataVisualizations} {col : String} {n : Nat} {c : ℚ}
    {ncells : List CellVal} {nx : List ℤ} {out : VizOutput} {l r : ℤ}
    (hget : v.df.get? col = some ncells) (hnum : asNum? ncells = some nx)
    (hc : 0 < c) (hok : visualize_numeric v col n c = .ok out)
    (hl : trimLeft nx c = some l) (hr : trimRight nx c = some r) :
    out.xlim = some (l, r) := by
  unfold visualize_numeric at hok
  simp only [hget, hnum] at hok
  repeat' split at hok
  all_goals try simp_all
  all_goals subst hok
  all_goals rfl

theorem visualize_ynum_to_xnum_lims {v : DataVisualizations} {dep ind : String} {c : ℚ}
    {ycells xcells : List CellVal} {yv xv : List ℤ} {out : VizOutput} {lx rx ly ry : ℤ}
    (hgety : v.df.get? dep = some ycells) (hnumy : asNum? ycells = some yv)
    (hgetx : v.df.get? ind = some xcells) (hnumx : asNum? xcells = some xv)
    (hc : 0 < c) (hok : visualize_ynum_to_xnum v dep ind c = .ok out)
    (hlx : trimLeft xv c = some lx) (hrx : trimRight xv c = some rx)
    (hly : trimLeft yv c = some ly) (hry : trimRight yv c = some ry) :
    out.xlim = some (lx, rx) ∧ out.ylim = some (ly, ry) := by
  unfold visualize_ynum_to_xnum at hok
  simp only [hgety, hnumy, hgetx, hnumx] at hok
  repeat' split at hok
  all_goals try simp_all
  all_goals subst hok
  all_goals exact ⟨rfl, rfl⟩

/-- C2: with outlier_cutoff = c > 0 the displayed lower bound excludes every
value at or below the c*100th percentile (such values are strictly below
the left limit), the displayed upper bound excludes every value at or above
the (1-c)*100th percentile, and in `visualize_ynum_to_xnum` this trimming
is applied independently to the x-axis column and the y-axis column, each
against its own percentiles. -/
theorem outlier_trim_excludes (v : DataVisualizations) (column depv indv : String)
    (nbins : Nat) (c : ℚ) (ncells ycells xcells : List CellVal)
    (nx yv xv : List ℤ) (out1 out2 : VizOutput) (l r lx rx ly ry : ℤ)
    (hc : 0 < c)
    (hget1 : v.df.get? column = some ncells) (hnum1 : asNum? ncells = some nx)
    (hok1 : visualize_numeric v column nbins c = .ok out1)
    (hl : trimLeft nx c = some l) (hr : trimRight nx c = some r)
    (hgety : v.df.get? depv = some ycells) (hnumy : asNum? ycells = some yv)
    (hgetx : v.df.get? indv = some xcells) (hnumx : asNum? xcells = some xv)
    (hok2 : visualize_ynum_to_xnum v depv indv c = .ok out2)
    (hlx : trimLeft xv c = some lx) (hrx : trimRight xv c = some rx)
    (hly : trimLeft yv c = some ly) (hry : trimRight yv c = some ry) :
    (out1.xlim = some (l, r)
      ∧ (∀ w ∈ nx, (w : ℚ) ≤ percentile nx (c * 100) → w < l)
      ∧ (∀ w ∈ nx, percentile nx ((1 - c) * 100) ≤ (w : ℚ) → r < w))
    ∧ (out2.xlim = some (lx, rx) ∧ out2.ylim = some (ly, ry)
      ∧ (∀ w ∈ xv, (w : ℚ) ≤ percentile xv (c * 100) → w < lx)
      ∧ (∀ w ∈ xv, percentile xv ((1 - c) * 100) ≤ (w : ℚ) → rx < w)
      ∧ (∀ w ∈ yv, (w : ℚ) ≤ percentile yv (c * 100) → w < ly)
      ∧ (∀ w ∈ yv, percentile yv ((1 - c) * 100) ≤ (w : ℚ) → ry < w)) := by
  have hlims := visualize_ynum_to_xnum_lims hgety hnumy hgetx hnumx hc hok2 hlx hrx hly hry
  exact ⟨⟨visualize_numeric_xlim hget1 hnum1 hc hok1 hl hr,
          trimLeft_excludes hl, trimRight_excludes hr⟩,
         ⟨hlims.1, hlims.2,
          trimLeft_excludes hlx, trimRight_excludes hrx,
          trimLeft_excludes hly, trimRight_excludes hry⟩⟩

/-- Witness for C2 on "age" = [20..29] with cutoff 1/10: the 10th percentile
is 20.9 and the 90th is 28.1, the limits are (21, 28) on both axes, the
value 20 (below the low percentile) lies strictly below the left limit and
the value 29 (above the high percentile) strictly above the right limit. -/
theorem outlier_trim_excludes_witness :
    ((0:ℚ) < 1/10)
    ∧ exNumOutC.xlim = some ((21:ℤ), (28:ℤ))
    ∧ exXYOutC.xlim = some ((21:ℤ), (28:ℤ))
    ∧ exXYOutC.ylim = some ((21:ℤ), (28:ℤ))
    ∧ ((20:ℤ) < 21)
    ∧ ((28:ℤ) < 29) := by
  have hget : exViz.df.get? "age" = some (ageCol.map .num) := by decide
  have hnum : asNum? (ageCol.map .num) = some ageCol := by decide
  have hpl : percentile ageCol 10 = 209/10 := by
    norm_num [percentile, sortAsc, sortBy, insertSortedBy, ageCol]
  have hpr : percentile ageCol 90 = 281/10 := by
    norm_num [percentile, sortAsc, sortBy, insertSortedBy, ageCol]
    norm_num [Int.toNat]
  have hl : trimLeft ageCol (1/10) = some 21 := by
    norm_num [trimLeft, hpl]
    norm_num [ageCol, listMin?, min_def]
  have hr : trimRight ageCol (1/10) = some 28 := by
    norm_num [trimRight, hpr]
    norm_num [ageCol, listMax?, max_def]
  have hok1 : visualize_numeric exViz "age" 5 (1/10) = .ok exNumOutC := by
    simp only [visualize_numeric, hget, hnum]
    norm_num [hl, hr]
    decide
  have hok2 : visualize_ynum_to_xnum exViz "age" "age" (1/10) = .ok exXYOutC := by
    simp only [visualize_ynum_to_xnum, hget, hnum]
    norm_num [hl, hr]
    decide
  have h := outlier_trim_excludes exViz "age" "age" "age" 5 (1/10)
    (ageCol.map .num) (ageCol.map .num) (ageCol.map .num) ageCol ageCol ageCol
    exNumOutC exXYOutC 21 28 21 28 21 28 (by norm_num)
    hget hnum hok1 hl hr hget hnum hget hnum hok2 hl hr hl hr
  refine ⟨by norm_num, h.1.1, h.2.1, h.2.2.1, ?_, ?_⟩
  · refine h.1.2.1 20 (by decide) ?_
    rw [show ((1:ℚ)/10 * 100 : ℚ) = 10 by norm_num, hpl]
    norm_num
  · refine h.1.2.2 29 (by decide) ?_
    rw [show (((1:ℚ) - 1/10) * 100 : ℚ) = 90 by norm_num, hpr]
    norm_num
